import Mathlib

/-!
Formal model of the task workflow engine in `core/services.py` and the data
model in `core/models.py` of the project/task tracker.

Statuses are modelled as plain strings, exactly as in the Python source
(`Task.StatusChoices` values "PENDENTE", "EM_PROGRESSO", "CONCLUIDA",
"CANCELADA"), so that out-of-range status values behave as they do in Python.
Dates are modelled as integers (days); `timezone.now().date()` becomes an
explicit `today` parameter. The `data_entrega` field can in memory hold a
non-date value, which the source probes with `hasattr(_, 'year')`; this is
modelled by the `DateVal` type. Exceptions raised by the validators become
`Except` errors, one constructor per distinct `raise` site, named after the
error taxonomy of the design spec.
-/

/-- The acting user, as seen by the service: the fields of the Django user
the source consults (`username`, `is_staff`, `is_authenticated`), plus an
identity for the `task.assignee != user` comparison. -/
structure WUser where
  uid : Nat
  username : String
  is_staff : Bool
  is_authenticated : Bool
deriving DecidableEq

/-- Value of `task.data_entrega`: either a real date (with a `year`
attribute), encoded by its day number, or some non-date object. -/
inductive DateVal where
  | date (day : Int)
  | nonDate
deriving DecidableEq

/-- Whether `hasattr(v, 'year')` holds for the stored value. -/
def DateVal.hasYear : DateVal → Bool
  | .date _ => true
  | .nonDate => false

/-- A task record (`core/models.py`, class `Task`): title, optional
description (None or the empty string are both falsy in `not task.descricao`),
status string, optional assignee (by user id), delivery date. -/
structure WTask where
  tid : Nat
  titulo : String
  descricao : Option String
  status : String
  assignee : Option Nat
  data_entrega : DateVal
deriving DecidableEq

/-- Error taxonomy: one constructor per distinct `raise` statement in
`TaskWorkflowService`, named after the design spec's error kinds.
`invalidTransition` carries the allowed-set that the source interpolates
into its message. -/
inductive TransitionError where
  | invalidTransition (fromStatus toStatus : String) (allowed : List String)
  | missingAssignee
  | pastDueDate
  | missingCompletionNotes
  | notAssignee
  | insufficientPrivilege
  | unauthenticated
deriving DecidableEq

/-- The class-level dict `TaskWorkflowService.VALID_TRANSITIONS`, modelled as
an association list in source order. -/
def VALID_TRANSITIONS : List (String × List String) :=
  [ ("PENDENTE", ["EM_PROGRESSO", "CANCELADA"]),
    ("EM_PROGRESSO", ["CONCLUIDA", "CANCELADA", "PENDENTE"]),
    ("CONCLUIDA", []),
    ("CANCELADA", ["PENDENTE"]) ]

/-- Python `dict.get(key, default)` on an association list. -/
def dict_get (d : List (String × List String)) (key : String)
    (default : List String) : List String :=
  match d.find? (fun p => p.1 = key) with
  | some p => p.2
  | none => default

/-- `TaskWorkflowService._validate_transition`: raises `InvalidTransition`
when the target is not in `VALID_TRANSITIONS.get(old_status, [])`. -/
def validate_transition (old_status new_status : String) :
    Except TransitionError Unit :=
  let valid_next_statuses := dict_get VALID_TRANSITIONS old_status []
  if new_status ∈ valid_next_statuses then .ok ()
  else .error (.invalidTransition old_status new_status valid_next_statuses)

/-- Truthiness of `task.descricao` (`None` and `""` are falsy). -/
def descricaoTruthy : Option String → Bool
  | none => false
  | some s => !(s = "")

/-- Python `str.strip()`: remove leading and trailing whitespace. -/
def pyStrip (s : String) : List Char :=
  ((s.data.dropWhile Char.isWhitespace).reverse.dropWhile Char.isWhitespace).reverse

/-- `len(task.descricao.strip())`, with 0 for a missing description (the
source short-circuits on `not task.descricao` before ever calling strip). -/
def stripLen : Option String → Nat
  | none => 0
  | some s => (pyStrip s).length

/-- The `new_status == EM_PROGRESSO` block of `_validate_business_rules`:
an assignee is required, and, only when `data_entrega` is a date object,
the date must not lie in the past. -/
def check_em_progresso (task : WTask) (today : Int) :
    Except TransitionError Unit :=
  if task.assignee = none then .error .missingAssignee
  else
    match task.data_entrega with
    | .date d => if d < today then .error .pastDueDate else .ok ()
    | .nonDate => .ok ()

/-- The `new_status == CONCLUIDA` block of `_validate_business_rules`:
the description must be truthy with at least 10 characters after stripping,
and when an assignee is set, only the assignee or a staff user may conclude. -/
def check_concluida (task : WTask) (user : WUser) :
    Except TransitionError Unit :=
  if !descricaoTruthy task.descricao ∨ stripLen task.descricao < 10 then
    .error .missingCompletionNotes
  else
    match task.assignee with
    | some a =>
        if a ≠ user.uid ∧ user.is_staff = false then .error .notAssignee
        else .ok ()
    | none => .ok ()

/-- `TaskWorkflowService._validate_business_rules`: the two status-specific
blocks run in source order (they are mutually exclusive, since `new_status`
cannot be two different strings). -/
def validate_business_rules (task : WTask) (new_status : String) (user : WUser)
    (today : Int) : Except TransitionError Unit :=
  match (if new_status = "EM_PROGRESSO" then check_em_progresso task today
         else .ok ()) with
  | .error e => .error e
  | .ok _ =>
      if new_status = "CONCLUIDA" then check_concluida task user else .ok ()

/-- `TaskWorkflowService._validate_permissions`: first the staff-only guard
for cancelling an in-progress task, then the authentication check. -/
def validate_permissions (task : WTask) (new_status : String) (user : WUser) :
    Except TransitionError Unit :=
  match (if new_status = "CANCELADA" then
           (if task.status = "EM_PROGRESSO" ∧ user.is_staff = false then
              (.error .insufficientPrivilege : Except TransitionError Unit)
            else .ok ())
         else .ok ()) with
  | .error e => .error e
  | .ok _ =>
      if user.is_authenticated = false then .error .unauthenticated
      else .ok ()

/-- The audit record logged by `_audit_transition` on a successful
transition (task id, old and new status, acting user, optional reason). -/
structure AuditRecord where
  taskId : Nat
  oldStatus : String
  newStatus : String
  username : String
  reason : Option String
deriving DecidableEq

/-- `TaskWorkflowService.transition_status`. Returns the task state visible
after the call, the audit record if one was emitted, and the error if one of
the checks raised. A raise leaves the task untouched (the source assigns
`task.status` only inside the final atomic block); on success the status is
written and the audit record emitted together. -/
def transition_status (task : WTask) (new_status : String) (user : WUser)
    (today : Int) (reason : Option String) :
    WTask × Option AuditRecord × Option TransitionError :=
  let old_status := task.status
  if old_status = new_status then (task, none, none)
  else
    match validate_transition old_status new_status with
    | .error e => (task, none, some e)
    | .ok _ =>
        match validate_business_rules task new_status user today with
        | .error e => (task, none, some e)
        | .ok _ =>
            match validate_permissions task new_status user with
            | .error e => (task, none, some e)
            | .ok _ =>
                let saved := { task with status := new_status }
                (saved,
                 some ⟨task.tid, old_status, new_status, user.username, reason⟩,
                 none)

/-- `TaskWorkflowService.get_available_transitions`:
`VALID_TRANSITIONS.get(task.status, [])`. -/
def get_available_transitions (task : WTask) : List String :=
  dict_get VALID_TRANSITIONS task.status []

/-- `TaskWorkflowService.can_transition_to`: membership test only. -/
def can_transition_to (task : WTask) (new_status : String) : Bool :=
  new_status ∈ get_available_transitions task

/-- A project record (`core/models.py`, class `Project`). -/
structure WProject where
  pid : Nat
  nome : String
  descricao : String
  data_inicio : Int
  data_fim : Int
deriving DecidableEq

/-- The `project_data` dict handed to
`ProjectService.create_project_with_initial_tasks`. -/
structure ProjectData where
  nome : String
  descricao : String
  data_inicio : Int
  data_fim : Int
deriving DecidableEq

/-- A `task_data` dict from the `initial_tasks` list. A `none` field models
the key being absent from the dict, in which case `Task(**task_data)` falls
back to the model-field default (status defaults to `"PENDENTE"`). -/
structure TaskData where
  titulo : String
  descricao : Option String
  status : Option String
  assignee : Option Nat
  data_entrega : DateVal
deriving DecidableEq

/-- A task row written by `Task.objects.bulk_create` (no primary key yet):
its owning project and the field values taken from the dict. -/
structure CreatedTask where
  projeto : Nat
  titulo : String
  descricao : Option String
  status : String
  assignee : Option Nat
  data_entrega : DateVal
deriving DecidableEq

/-- The one `raise` site of `create_project_with_initial_tasks`. -/
inductive CreateError where
  | invalidDates
deriving DecidableEq

/-- `Task(**task_data)` after `task_data['projeto'] = project`: each supplied
value is used as-is; an absent status key takes the model default
`"PENDENTE"`. -/
def task_from_data (projectId : Nat) (d : TaskData) : CreatedTask :=
  { projeto := projectId,
    titulo := d.titulo,
    descricao := d.descricao,
    status := d.status.getD "PENDENTE",
    assignee := d.assignee,
    data_entrega := d.data_entrega }

/-- `ProjectService.create_project_with_initial_tasks`: validates
`data_fim > data_inicio`, then creates the project and the tasks built from
the `initial_tasks` dicts in one transaction. `newId` stands for the primary
key the store assigns to the new project row. -/
def create_project_with_initial_tasks (project_data : ProjectData)
    (initial_tasks : List TaskData) (user : WUser) (newId : Nat) :
    Except CreateError (WProject × List CreatedTask) :=
  if project_data.data_fim ≤ project_data.data_inicio then
    .error .invalidDates
  else
    let project : WProject :=
      ⟨newId, project_data.nome, project_data.descricao,
       project_data.data_inicio, project_data.data_fim⟩
    .ok (project, initial_tasks.map (task_from_data newId))

/-- `tasks.filter(status=s).count()` over the project's task statuses. -/
def count_status (statuses : List String) (s : String) : Nat :=
  (statuses.filter (fun t => t = s)).length

/-- Python 3 `round(x, 2)` on the exact rational value: round half to even
at two decimal places. -/
def round_half_even (q : ℚ) : ℤ :=
  if q - ⌊q⌋ < 1 / 2 then ⌊q⌋
  else if q - ⌊q⌋ > 1 / 2 then ⌊q⌋ + 1
  else if ⌊q⌋ % 2 = 0 then ⌊q⌋ else ⌊q⌋ + 1

/-- `round(x, 2)` as a rational with two decimal places. -/
def round2 (q : ℚ) : ℚ := (round_half_even (q * 100) : ℚ) / 100

/-- `ProjectService._calculate_progress` over the project's task statuses:
`round((concluidas / total) * 100, 2)`, and `0.0` for an empty task set. -/
def calculate_progress (statuses : List String) : ℚ :=
  let total := statuses.length
  if total = 0 then 0
  else
    let concluidas := count_status statuses "CONCLUIDA"
    round2 (((concluidas : ℚ) / (total : ℚ)) * 100)

/-- The dict returned by `ProjectService.get_project_summary`. -/
structure ProjectSummary where
  pid : Nat
  nome : String
  total_tasks : Nat
  tasks_pendentes : Nat
  tasks_em_progresso : Nat
  tasks_concluidas : Nat
  tasks_canceladas : Nat
  progress_percentage : ℚ
deriving DecidableEq

/-- `ProjectService.get_project_summary`, with `statuses` the statuses of
`project.tasks.all()`. -/
def get_project_summary (project : WProject) (statuses : List String) :
    ProjectSummary :=
  { pid := project.pid,
    nome := project.nome,
    total_tasks := statuses.length,
    tasks_pendentes := count_status statuses "PENDENTE",
    tasks_em_progresso := count_status statuses "EM_PROGRESSO",
    tasks_concluidas := count_status statuses "CONCLUIDA",
    tasks_canceladas := count_status statuses "CANCELADA",
    progress_percentage := calculate_progress statuses }

/-- The spec's formula for progress, written exactly as §4.4 states it:
`round(100 × doneCount / total, 2 decimal places)`, defined as `0.0` when
`total` is `0`. -/
def spec_progress_percentage (statuses : List String) : ℚ :=
  if statuses.length = 0 then 0
  else round2 (100 * (count_status statuses "CONCLUIDA" : ℚ) / (statuses.length : ℚ))

/-! ### Shared concrete records for witnesses and counterexamples -/

/-- Whether `task.data_entrega` is not strictly in the past: the condition
under which the due-date business rule lets the transition through (it is
vacuously satisfied by a non-date value, which the source never compares). -/
def due_date_ok (task : WTask) (today : Int) : Bool :=
  match task.data_entrega with
  | .date d => decide (today ≤ d)
  | .nonDate => true

/-- A finished task (status `"CONCLUIDA"`). -/
def ex_done_task : WTask :=
  ⟨11, "done", some "feito com detalhes", "CONCLUIDA", some 1, .nonDate⟩

/-- An authenticated staff user. -/
def ex_staff_user : WUser := ⟨1, "alice", true, true⟩

/-- An anonymous user: neither staff nor authenticated. -/
def ex_anon_user : WUser := ⟨0, "", false, false⟩

/-- An authenticated non-staff user. -/
def ex_plain_user : WUser := ⟨2, "bruno", false, true⟩

/-- A pending task with no assignee and a far-future due date. -/
def ex_pending_task : WTask :=
  ⟨12, "todo", none, "PENDENTE", none, .date 100⟩

/-- An in-progress task whose description strips to fewer than 10 chars. -/
def ex_short_desc_task : WTask :=
  ⟨14, "curta", some "   curta  ", "EM_PROGRESSO", some 2, .date 100⟩

/-- A pending task with an assignee and a future due date. -/
def ex_assigned_task : WTask :=
  ⟨13, "pronta", none, "PENDENTE", some 2, .date 10⟩

/-- A pending assigned task whose `data_entrega` holds a non-date value. -/
def ex_strdate_task : WTask :=
  ⟨15, "strdate", none, "PENDENTE", some 2, .nonDate⟩

/-- A task carrying a status value outside the four defined choices. -/
def ex_rogue_task : WTask :=
  ⟨16, "rogue", none, "ARQUIVADA", some 1, .date 50⟩

/-- Project data with a valid date range. -/
def ex_project_data : ProjectData := ⟨"Projeto X", "desc", 0, 10⟩

/-- A task dict that explicitly supplies `status = "CONCLUIDA"`. -/
def ex_concluida_task_data : TaskData :=
  ⟨"Tarefa 1", none, some "CONCLUIDA", none, .nonDate⟩

/-- Project data whose end date equals its start date. -/
def ex_bad_project_data : ProjectData := ⟨"Projeto Y", "", 5, 5⟩

/-! ### Evaluation helpers for the validator pipeline -/

/-- Unfolding of `transition_status` for a genuine status change. -/
theorem transition_status_pipeline (task : WTask) (new_status : String)
    (user : WUser) (today : Int) (reason : Option String)
    (hne : task.status ≠ new_status) :
    transition_status task new_status user today reason =
      (match validate_transition task.status new_status with
       | .error e => (task, none, some e)
       | .ok _ =>
           match validate_business_rules task new_status user today with
           | .error e => (task, none, some e)
           | .ok _ =>
               match validate_permissions task new_status user with
               | .error e => (task, none, some e)
               | .ok _ =>
                   ({ task with status := new_status },
                    some ⟨task.tid, task.status, new_status, user.username,
                          reason⟩,
                    none)) := by
  unfold transition_status
  rw [if_neg hne]

/-- For target `"CONCLUIDA"` the business-rule validator is exactly the
completion block. -/
theorem validate_business_rules_concluida (task : WTask) (user : WUser)
    (today : Int) :
    validate_business_rules task "CONCLUIDA" user today =
      check_concluida task user := rfl

/-- For target `"EM_PROGRESSO"` the business-rule validator is exactly the
start block. -/
theorem validate_business_rules_em_progresso (task : WTask) (user : WUser)
    (today : Int) :
    validate_business_rules task "EM_PROGRESSO" user today =
      check_em_progresso task today := by
  unfold validate_business_rules
  rw [if_pos rfl]
  cases h : check_em_progresso task today with
  | error e => rfl
  | ok u => cases u; rfl

/-- For a target other than `"CANCELADA"` the permission validator reduces
to the authentication check alone. -/
theorem validate_permissions_not_cancelada (task : WTask) (new_status : String)
    (user : WUser) (h : new_status ≠ "CANCELADA") :
    validate_permissions task new_status user =
      (if user.is_authenticated = false then .error .unauthenticated
       else .ok ()) := by
  unfold validate_permissions
  rw [if_neg h]

/-- An untruthy description strips to length zero. -/
theorem stripLen_eq_zero_of_not_truthy (d : Option String)
    (h : descricaoTruthy d = false) : stripLen d = 0 := by
  cases d with
  | none => rfl
  | some s =>
      have hs : s = "" := by
        by_contra hne
        simp [descricaoTruthy, hne] at h
      subst hs
      rfl

/-- The completion block rejects with `MissingCompletionNotes` exactly when
the stripped description is shorter than 10 characters. -/
theorem check_concluida_missing_iff (task : WTask) (user : WUser) :
    (check_concluida task user =
        .error TransitionError.missingCompletionNotes ↔
      stripLen task.descricao < 10) := by
  unfold check_concluida
  by_cases hc : ((!descricaoTruthy task.descricao) = true ∨
      stripLen task.descricao < 10)
  · rw [if_pos hc]
    constructor
    · intro _
      rcases hc with hb | hl
      · have h0 : stripLen task.descricao = 0 :=
          stripLen_eq_zero_of_not_truthy _ (by simpa using hb)
        omega
      · exact hl
    · intro _; rfl
  · rw [if_neg hc]
    push_neg at hc
    constructor
    · intro h
      exfalso
      cases ha : task.assignee with
      | none => rw [ha] at h; exact Except.noConfusion h
      | some a =>
          rw [ha] at h
          have h' : (if a ≠ user.uid ∧ user.is_staff = false then
              (Except.error TransitionError.notAssignee :
                Except TransitionError Unit)
            else Except.ok ()) =
              Except.error TransitionError.missingCompletionNotes := h
          by_cases hb : a ≠ user.uid ∧ user.is_staff = false
          · rw [if_pos hb] at h'
            simp at h'
          · rw [if_neg hb] at h'
            exact Except.noConfusion h'
    · intro h
      exact absurd h (by omega)

/-- The `"EM_PROGRESSO"` block rejects with `MissingAssignee` exactly when
the task has no assignee. -/
theorem check_em_progresso_missing_iff (task : WTask) (today : Int) :
    (check_em_progresso task today =
        .error TransitionError.missingAssignee ↔
      task.assignee = none) := by
  unfold check_em_progresso
  by_cases ha : task.assignee = none
  · rw [if_pos ha]
    exact ⟨fun _ => ha, fun _ => rfl⟩
  · rw [if_neg ha]
    constructor
    · intro h
      exfalso
      cases hd : task.data_entrega with
      | date d =>
          rw [hd] at h
          have h' : (if d < today then
              (Except.error TransitionError.pastDueDate :
                Except TransitionError Unit)
            else Except.ok ()) =
              Except.error TransitionError.missingAssignee := h
          by_cases hlt : d < today
          · rw [if_pos hlt] at h'
            simp at h'
          · rw [if_neg hlt] at h'
            exact Except.noConfusion h'
      | nonDate => rw [hd] at h; exact Except.noConfusion h
    · intro h
      exact absurd h ha

/-- The `"EM_PROGRESSO"` block passes when the task has an assignee and its
due date is not strictly in the past (in particular for a non-date value). -/
theorem check_em_progresso_ok (task : WTask) (today : Int) (a : Nat)
    (ha : task.assignee = some a) (hd : due_date_ok task today = true) :
    check_em_progresso task today = .ok () := by
  unfold check_em_progresso
  rw [if_neg (by rw [ha]; exact Option.noConfusion)]
  unfold due_date_ok at hd
  cases he : task.data_entrega with
  | date d =>
      rw [he] at hd
      simp only [decide_eq_true_eq] at hd
      show (if d < today then (Except.error TransitionError.pastDueDate :
          Except TransitionError Unit) else Except.ok ()) = Except.ok ()
      rw [if_neg (by omega)]
  | nonDate => rfl

/-! ### Claim theorems -/

/-- C4: transitioning a task to its current status succeeds for every actor
(authenticated or not) and every task, returns the task unchanged, and
produces no audit record and no error. -/
theorem C4_self_transition_noop (task : WTask) (user : WUser) (today : Int)
    (reason : Option String) :
    transition_status task task.status user today reason =
      (task, none, none) := by
  unfold transition_status
  rw [if_pos rfl]

/-- C3: a target not in the transition table's row for the current status is
rejected with `InvalidTransition` carrying the allowed set — for every actor
and date, so business rules and authorization are never consulted. -/
theorem C3_invalid_transition_rejected (task : WTask) (new_status : String)
    (user : WUser) (today : Int) (reason : Option String)
    (hne : task.status ≠ new_status)
    (hmem : new_status ∉ dict_get VALID_TRANSITIONS task.status []) :
    transition_status task new_status user today reason =
      (task, none,
       some (TransitionError.invalidTransition task.status new_status
              (dict_get VALID_TRANSITIONS task.status []))) := by
  rw [transition_status_pipeline task new_status user today reason hne]
  simp only [validate_transition]
  rw [if_neg hmem]

/-- Witness for C3: reverting a finished task is rejected with the empty
allowed set, even for a staff actor. -/
theorem C3_invalid_transition_rejected_witness :
    transition_status ex_done_task "EM_PROGRESSO" ex_staff_user 0 none =
      (ex_done_task, none,
       some (TransitionError.invalidTransition "CONCLUIDA" "EM_PROGRESSO"
              (dict_get VALID_TRANSITIONS "CONCLUIDA" []))) :=
  C3_invalid_transition_rejected ex_done_task "EM_PROGRESSO" ex_staff_user 0
    none (by decide) (by decide)

/-- C2: a rejected transition leaves the task exactly as it was and emits no
audit record, whatever the error was. -/
theorem C2_no_mutation_on_rejection (task : WTask) (new_status : String)
    (user : WUser) (today : Int) (reason : Option String) (e : TransitionError)
    (h : (transition_status task new_status user today reason).2.2 = some e) :
    (transition_status task new_status user today reason).1 = task ∧
    (transition_status task new_status user today reason).2.1 = none := by
  by_cases hne : task.status = new_status
  · unfold transition_status at h
    rw [if_pos hne] at h
    exact Option.noConfusion h
  · rw [transition_status_pipeline task new_status user today reason hne] at h ⊢
    cases h1 : validate_transition task.status new_status with
    | error e1 => exact ⟨rfl, rfl⟩
    | ok u =>
        cases u
        cases h2 : validate_business_rules task new_status user today with
        | error e2 => exact ⟨rfl, rfl⟩
        | ok u =>
            cases u
            cases h3 : validate_permissions task new_status user with
            | error e3 => exact ⟨rfl, rfl⟩
            | ok u =>
                cases u
                rw [h1, h2, h3] at h
                exact Option.noConfusion h

/-- Witness for C2: a rejected reopen of a finished task mutates nothing. -/
theorem C2_no_mutation_on_rejection_witness :
    (transition_status ex_done_task "PENDENTE" ex_staff_user 0 none).1 =
      ex_done_task ∧
    (transition_status ex_done_task "PENDENTE" ex_staff_user 0 none).2.1 =
      none :=
  C2_no_mutation_on_rejection ex_done_task "PENDENTE" ex_staff_user 0 none
    (TransitionError.invalidTransition "CONCLUIDA" "PENDENTE" []) (by decide)

/-- Counterexample to C1 as stated: an unauthenticated actor attempting an
invalid transition receives `InvalidTransition`, not `Unauthenticated` — the
authentication check does not run first. -/
theorem C1_counterexample :
    (transition_status ex_done_task "PENDENTE" ex_anon_user 0 none).2.2 =
      some (TransitionError.invalidTransition "CONCLUIDA" "PENDENTE" []) ∧
    (transition_status ex_done_task "PENDENTE" ex_anon_user 0 none).2.2 ≠
      some TransitionError.unauthenticated := by decide

/-- C1 (amended): for a genuine status change the checks run in the fixed
order transition-table membership → business rules → authorization (first
the staff-only cancellation guard, then authentication last), and the error
of the first failing check is returned, never a batch; an unauthenticated
actor receives `Unauthenticated` exactly when every check that runs before
the authentication check passes. -/
theorem C1_check_order (task : WTask) (new_status : String) (user : WUser)
    (today : Int) (reason : Option String)
    (hne : task.status ≠ new_status) :
    (∀ e, validate_transition task.status new_status = .error e →
        (transition_status task new_status user today reason).2.2 = some e) ∧
    (∀ e, validate_transition task.status new_status = .ok () →
        validate_business_rules task new_status user today = .error e →
        (transition_status task new_status user today reason).2.2 = some e) ∧
    (∀ e, validate_transition task.status new_status = .ok () →
        validate_business_rules task new_status user today = .ok () →
        validate_permissions task new_status user = .error e →
        (transition_status task new_status user today reason).2.2 = some e) ∧
    (user.is_authenticated = false →
        validate_transition task.status new_status = .ok () →
        validate_business_rules task new_status user today = .ok () →
        ¬(new_status = "CANCELADA" ∧ task.status = "EM_PROGRESSO" ∧
            user.is_staff = false) →
        (transition_status task new_status user today reason).2.2 =
          some TransitionError.unauthenticated) := by
  rw [transition_status_pipeline task new_status user today reason hne]
  refine ⟨?_, ?_, ?_, ?_⟩
  · intro e h1
    rw [h1]
  · intro e h1 h2
    rw [h1, h2]
  · intro e h1 h2 h3
    rw [h1, h2, h3]
  · intro hauth h1 h2 hcond
    have hperm : validate_permissions task new_status user =
        .error .unauthenticated := by
      unfold validate_permissions
      by_cases hc : new_status = "CANCELADA"
      · rw [if_pos hc, if_neg (fun hand => hcond ⟨hc, hand⟩)]
        show (if user.is_authenticated = false then
            (Except.error TransitionError.unauthenticated :
              Except TransitionError Unit)
          else .ok ()) = .error .unauthenticated
        rw [if_pos hauth]
      · rw [if_neg hc]
        show (if user.is_authenticated = false then
            (Except.error TransitionError.unauthenticated :
              Except TransitionError Unit)
          else .ok ()) = .error .unauthenticated
        rw [if_pos hauth]
    rw [h1, h2, hperm]

/-- Witness for C1 (amended): an unauthenticated actor with a missing
assignee receives `MissingAssignee` — the business rule fires before the
authentication check ever runs. -/
theorem C1_check_order_witness :
    (transition_status ex_pending_task "EM_PROGRESSO" ex_anon_user 0
        none).2.2 = some TransitionError.missingAssignee :=
  (C1_check_order ex_pending_task "EM_PROGRESSO" ex_anon_user 0 none
      (by decide)).2.1 TransitionError.missingAssignee (by rfl) (by rfl)

/-- Error component of a completion attempt from `"EM_PROGRESSO"`: the
completion block's verdict, then the permission check. -/
theorem transition_err_concluida (task : WTask) (user : WUser) (today : Int)
    (reason : Option String) (hst : task.status = "EM_PROGRESSO") :
    (transition_status task "CONCLUIDA" user today reason).2.2 =
      (match check_concluida task user with
       | .error e => some e
       | .ok _ =>
           match validate_permissions task "CONCLUIDA" user with
           | .error e => some e
           | .ok _ => none) := by
  have hne : task.status ≠ "CONCLUIDA" := by rw [hst]; decide
  rw [transition_status_pipeline task "CONCLUIDA" user today reason hne,
      show validate_transition task.status "CONCLUIDA" = .ok () from by
        rw [hst]; rfl,
      validate_business_rules_concluida]
  cases check_concluida task user with
  | error e => rfl
  | ok u =>
      cases u
      cases validate_permissions task "CONCLUIDA" user with
      | error e => rfl
      | ok u => cases u; rfl

/-- C6: from `"EM_PROGRESSO"`, a transition to `"CONCLUIDA"` is rejected
with `MissingCompletionNotes` exactly when the stripped description has
fewer than 10 characters (a missing or blank description counts as length
0); at 10 or more stripped characters that error can no longer occur. -/
theorem C6_missing_completion_notes (task : WTask) (user : WUser)
    (today : Int) (reason : Option String)
    (hst : task.status = "EM_PROGRESSO") :
    ((transition_status task "CONCLUIDA" user today reason).2.2 =
        some TransitionError.missingCompletionNotes ↔
      stripLen task.descricao < 10) := by
  rw [transition_err_concluida task user today reason hst,
      ← check_concluida_missing_iff task user]
  cases hcc : check_concluida task user with
  | error e => simp
  | ok u =>
      cases u
      rw [validate_permissions_not_cancelada task "CONCLUIDA" user (by decide)]
      by_cases hauth : user.is_authenticated = false
      · rw [if_pos hauth]; simp
      · rw [if_neg hauth]; simp

/-- Witness for C6: a 5-character stripped description is rejected with
`MissingCompletionNotes`. -/
theorem C6_missing_completion_notes_witness :
    (transition_status ex_short_desc_task "CONCLUIDA" ex_plain_user 0
        none).2.2 = some TransitionError.missingCompletionNotes :=
  (C6_missing_completion_notes ex_short_desc_task ex_plain_user 0 none
      rfl).mpr (by decide)

/-- Full outcome of a start attempt from `"PENDENTE"`: the start block's
verdict, then the permission check, then the commit. -/
theorem transition_pipeline_em_progresso (task : WTask) (user : WUser)
    (today : Int) (reason : Option String) (hst : task.status = "PENDENTE") :
    transition_status task "EM_PROGRESSO" user today reason =
      (match check_em_progresso task today with
       | .error e => (task, none, some e)
       | .ok _ =>
           match validate_permissions task "EM_PROGRESSO" user with
           | .error e => (task, none, some e)
           | .ok _ =>
               ({ task with status := "EM_PROGRESSO" },
                some ⟨task.tid, task.status, "EM_PROGRESSO", user.username,
                      reason⟩,
                none)) := by
  have hne : task.status ≠ "EM_PROGRESSO" := by rw [hst]; decide
  rw [transition_status_pipeline task "EM_PROGRESSO" user today reason hne,
      show validate_transition task.status "EM_PROGRESSO" = .ok () from by
        rw [hst]; rfl,
      validate_business_rules_em_progresso]

/-- C7: from `"PENDENTE"`, a transition to `"EM_PROGRESSO"` is rejected with
`MissingAssignee` exactly when the assignee is unset, and succeeds for an
authenticated actor once the assignee is set, provided the due date is not
strictly in the past. -/
theorem C7_pending_to_in_progress (task : WTask) (user : WUser) (today : Int)
    (reason : Option String) (hst : task.status = "PENDENTE") :
    ((transition_status task "EM_PROGRESSO" user today reason).2.2 =
        some TransitionError.missingAssignee ↔
      task.assignee = none) ∧
    (∀ a, task.assignee = some a → user.is_authenticated = true →
      due_date_ok task today = true →
      transition_status task "EM_PROGRESSO" user today reason =
        ({ task with status := "EM_PROGRESSO" },
         some ⟨task.tid, "PENDENTE", "EM_PROGRESSO", user.username, reason⟩,
         none)) := by
  constructor
  · rw [transition_pipeline_em_progresso task user today reason hst,
        ← check_em_progresso_missing_iff task today]
    cases hc : check_em_progresso task today with
    | error e => simp
    | ok u =>
        cases u
        rw [validate_permissions_not_cancelada task "EM_PROGRESSO" user
              (by decide)]
        by_cases hauth : user.is_authenticated = false
        · rw [if_pos hauth]; simp
        · rw [if_neg hauth]; simp
  · intro a ha hauth hdue
    rw [transition_pipeline_em_progresso task user today reason hst,
        check_em_progresso_ok task today a ha hdue,
        validate_permissions_not_cancelada task "EM_PROGRESSO" user
          (by decide),
        if_neg (by rw [hauth]; exact Bool.noConfusion), hst]

/-- Witness for C7: with the assignee set and the due date ahead, the start
transition succeeds and is audited. -/
theorem C7_pending_to_in_progress_witness :
    transition_status ex_assigned_task "EM_PROGRESSO" ex_plain_user 5 none =
      ({ ex_assigned_task with status := "EM_PROGRESSO" },
       some ⟨13, "PENDENTE", "EM_PROGRESSO", "bruno", none⟩,
       none) :=
  (C7_pending_to_in_progress ex_assigned_task ex_plain_user 5 none rfl).2
    2 rfl rfl (by decide)

/-- C9: the past-due rule runs only when `data_entrega` is date-like (has a
`year` attribute): with a non-date value the business rules can never
reject with `PastDueDate`, and a pending, assigned task started by an
authenticated actor succeeds at every evaluation time, however late. -/
theorem C9_non_date_due_check_skipped (task : WTask) (user : WUser)
    (reason : Option String) (a : Nat)
    (hyr : task.data_entrega.hasYear = false)
    (hst : task.status = "PENDENTE") (ha : task.assignee = some a)
    (hauth : user.is_authenticated = true) :
    (∀ today, validate_business_rules task "EM_PROGRESSO" user today ≠
        .error TransitionError.pastDueDate) ∧
    (∀ today,
      (transition_status task "EM_PROGRESSO" user today reason).2.2 = none ∧
      (transition_status task "EM_PROGRESSO" user today
          reason).1.status = "EM_PROGRESSO") := by
  have hnd : task.data_entrega = DateVal.nonDate := by
    cases he : task.data_entrega with
    | date d => rw [he] at hyr; exact Bool.noConfusion hyr
    | nonDate => rfl
  have hok : ∀ today, check_em_progresso task today = .ok () := by
    intro today
    exact check_em_progresso_ok task today a ha
      (by unfold due_date_ok; rw [hnd])
  constructor
  · intro today h
    rw [validate_business_rules_em_progresso, hok today] at h
    exact Except.noConfusion h
  · intro today
    rw [transition_pipeline_em_progresso task user today reason hst,
        hok today,
        validate_permissions_not_cancelada task "EM_PROGRESSO" user
          (by decide),
        if_neg (by rw [hauth]; exact Bool.noConfusion)]
    exact ⟨rfl, rfl⟩

/-- Witness for C9: with a non-date `data_entrega` the start succeeds even
at an arbitrarily late evaluation time. -/
theorem C9_non_date_due_check_skipped_witness :
    (transition_status ex_strdate_task "EM_PROGRESSO" ex_plain_user 1000000
        none).2.2 = none ∧
    (transition_status ex_strdate_task "EM_PROGRESSO" ex_plain_user 1000000
        none).1.status = "EM_PROGRESSO" :=
  (C9_non_date_due_check_skipped ex_strdate_task ex_plain_user none 2
      rfl rfl rfl rfl).2 1000000

/-- C10: a status outside the four defined values has no row in the
transition table, so the `.get` default totalizes the lookup to the empty
set: no available transitions, `can_transition_to` is false for every
target, and every non-self transition attempt fails with
`InvalidTransition` carrying the empty allowed set. -/
theorem C10_unknown_status_totalizes (task : WTask) (new_status : String)
    (user : WUser) (today : Int) (reason : Option String)
    (hout : task.status ∉
      ["PENDENTE", "EM_PROGRESSO", "CONCLUIDA", "CANCELADA"]) :
    get_available_transitions task = [] ∧
    (∀ target, can_transition_to task target = false) ∧
    (task.status ≠ new_status →
      (transition_status task new_status user today reason).2.2 =
        some (TransitionError.invalidTransition task.status new_status [])) := by
  simp only [List.mem_cons, List.mem_singleton, not_or] at hout
  obtain ⟨n1, n2, n3, n4, -⟩ := hout
  have hd : dict_get VALID_TRANSITIONS task.status [] = [] := by
    simp [dict_get, VALID_TRANSITIONS, List.find?,
      decide_eq_false (Ne.symm n1), decide_eq_false (Ne.symm n2),
      decide_eq_false (Ne.symm n3), decide_eq_false (Ne.symm n4)]
  refine ⟨hd, ?_, ?_⟩
  · intro target
    simp [can_transition_to, get_available_transitions, hd]
  · intro hne
    rw [transition_status_pipeline task new_status user today reason hne]
    simp only [validate_transition]
    rw [hd, if_neg (List.not_mem_nil new_status)]

/-- Witness for C10: a task with status `"ARQUIVADA"` has no transitions and
every attempt is rejected with the empty allowed set. -/
theorem C10_unknown_status_totalizes_witness :
    get_available_transitions ex_rogue_task = [] ∧
    can_transition_to ex_rogue_task "CONCLUIDA" = false ∧
    (transition_status ex_rogue_task "PENDENTE" ex_staff_user 0 none).2.2 =
      some (TransitionError.invalidTransition "ARQUIVADA" "PENDENTE" []) := by
  have h := C10_unknown_status_totalizes ex_rogue_task "PENDENTE"
    ex_staff_user 0 none (by decide)
  exact ⟨h.1, h.2.1 "CONCLUIDA", h.2.2 (by decide)⟩

/-- Counterexample to C5 as stated: a supplied status value is passed
through `Task(**task_data)` unchanged, so a dict carrying
`status = "CONCLUIDA"` produces a task created as `"CONCLUIDA"`, not
`"PENDENTE"`. -/
theorem C5_counterexample :
    create_project_with_initial_tasks ex_project_data
        [ex_concluida_task_data] ex_staff_user 1 =
      .ok (⟨1, "Projeto X", "desc", 0, 10⟩,
           [⟨1, "Tarefa 1", none, "CONCLUIDA", none, .nonDate⟩]) ∧
    "CONCLUIDA" ≠ "PENDENTE" := ⟨rfl, by decide⟩

/-- C5 (amended): `create_project_with_initial_tasks` fails with the
invalid-dates error exactly when the end date is not strictly after the
start date; otherwise it creates the project and one task per supplied dict
as one atomic unit, each created task belonging to the new project and
carrying the supplied status when the dict has one and the model default
`"PENDENTE"` when it does not. -/
theorem C5_create_project_with_initial_tasks (project_data : ProjectData)
    (initial_tasks : List TaskData) (user : WUser) (newId : Nat) :
    (create_project_with_initial_tasks project_data initial_tasks user newId =
        .error CreateError.invalidDates ↔
      project_data.data_fim ≤ project_data.data_inicio) ∧
    (project_data.data_inicio < project_data.data_fim →
      create_project_with_initial_tasks project_data initial_tasks user newId =
        .ok (⟨newId, project_data.nome, project_data.descricao,
              project_data.data_inicio, project_data.data_fim⟩,
             initial_tasks.map (task_from_data newId)) ∧
      (∀ t ∈ initial_tasks.map (task_from_data newId), t.projeto = newId) ∧
      (∀ d ∈ initial_tasks, d.status = none →
        (task_from_data newId d).status = "PENDENTE") ∧
      (∀ d ∈ initial_tasks, ∀ s, d.status = some s →
        (task_from_data newId d).status = s)) := by
  constructor
  · unfold create_project_with_initial_tasks
    by_cases hle : project_data.data_fim ≤ project_data.data_inicio
    · rw [if_pos hle]
      exact ⟨fun _ => hle, fun _ => rfl⟩
    · rw [if_neg hle]
      exact ⟨fun h => Except.noConfusion h, fun h => absurd h hle⟩
  · intro hlt
    refine ⟨?_, ?_, ?_, ?_⟩
    · unfold create_project_with_initial_tasks
      rw [if_neg (by omega)]
    · intro t ht
      obtain ⟨d, -, rfl⟩ := List.mem_map.mp ht
      rfl
    · intro d _ hs
      unfold task_from_data
      rw [hs]
      rfl
    · intro d _ s hs
      unfold task_from_data
      rw [hs]
      rfl

/-- Witness for C5 (amended): equal start and end dates are rejected. -/
theorem C5_create_project_with_initial_tasks_witness :
    create_project_with_initial_tasks ex_bad_project_data
        [ex_concluida_task_data] ex_staff_user 3 =
      .error CreateError.invalidDates :=
  (C5_create_project_with_initial_tasks ex_bad_project_data
      [ex_concluida_task_data] ex_staff_user 3).1.mpr (by decide)

/-- Rounding an integer value changes nothing. -/
theorem round_half_even_intCast (n : ℤ) : round_half_even (n : ℚ) = n := by
  unfold round_half_even
  rw [Int.floor_intCast, if_pos (by norm_num)]

/-- C8: the summary's progress percentage is
`round(100 × doneCount / total, 2)` (the code computes
`(doneCount / total) × 100`, equal over the exact rationals), it is `0` for
a project with no tasks, and a project with 4 tasks of which exactly one is
`"CONCLUIDA"` yields `25`. -/
theorem C8_progress_percentage :
    (∀ (project : WProject) (statuses : List String),
        (get_project_summary project statuses).progress_percentage =
          spec_progress_percentage statuses) ∧
    (∀ project : WProject,
        (get_project_summary project []).progress_percentage = 0) ∧
    (∀ project : WProject,
        (get_project_summary project
            ["CONCLUIDA", "CANCELADA", "PENDENTE",
             "PENDENTE"]).progress_percentage = 25) := by
  refine ⟨?_, ?_, ?_⟩
  · intro project statuses
    show calculate_progress statuses = spec_progress_percentage statuses
    unfold calculate_progress spec_progress_percentage
    by_cases h0 : statuses.length = 0
    · rw [if_pos h0, if_pos h0]
    · rw [if_neg h0, if_neg h0]
      ring_nf
  · intro project
    rfl
  · intro project
    show calculate_progress
        ["CONCLUIDA", "CANCELADA", "PENDENTE", "PENDENTE"] = 25
    have hc : count_status ["CONCLUIDA", "CANCELADA", "PENDENTE", "PENDENTE"]
        "CONCLUIDA" = 1 := rfl
    simp only [calculate_progress, hc]
    rw [if_neg (by decide),
        show ((((1 : Nat) : ℚ)) /
            (((["CONCLUIDA", "CANCELADA", "PENDENTE", "PENDENTE"] :
              List String).length : Nat) : ℚ) * 100) = 25 by norm_num]
    unfold round2
    rw [show ((25 : ℚ) * 100) = ((2500 : ℤ) : ℚ) by norm_num,
        round_half_even_intCast]
    norm_num
